import Mathlib

/-!
Verification of the order-creation transaction engine.

Shallow embedding of the store back end's checkout core:
`src/services/OrderService.js` (engine and query service) and
`src/controllers/Order.js` (HTTP boundary for orders), together with the
price-update effect of `src/controllers/Product.js`.

Conventions of the embedding:
* JS numbers used for money are modelled as `Rat`; stock and quantities as
  `Int` (the database column is an `int` and the code can drive it negative).
* The database session of one request is explicit state passing: the
  `queryRunner` transaction of `createOrderWithPayment` commits on success
  and rolls back on any thrown error, so the error branches return the
  caller's original state unchanged.
* The remote payment processor (`CreditCardPaymentStrategy.processPayment`,
  an external HTTP service) is an oracle `Rat → PaymentResult` giving the
  processor's answer for a charged amount; the amounts actually sent to it
  are recorded in `Outcome.charges`.
* Thrown JS `Error` values are the inductive type `Err`; the boundary
  dispatches on substrings of their messages, so `errMessage` reproduces the
  exact message templates of the source.
-/

deriving instance DecidableEq for Except

namespace Store

/-- A catalog product (entity `Game` in `src/models/Product.js`): only the
fields the checkout core reads. `stock` is an `int` column. -/
structure Product where
  id : Nat
  name : String
  price : Rat
  stock : Int
  deriving Repr, DecidableEq

/-- One cart line `{productId, quantity}` as sent to `createOrderWithPayment`. -/
structure LineItem where
  productId : Nat
  quantity : Int
  deriving Repr, DecidableEq

/-- One element of `orderItemsData` built during the validation loop
(`OrderService.js` lines 69–74). -/
structure ItemData where
  productId : Nat
  quantity : Int
  unitPrice : Rat
  subtotal : Rat
  deriving Repr, DecidableEq

/-- Result of `processPayment`: `{success, transactionId, message}`. -/
structure PaymentResult where
  success : Bool
  transactionId : String
  message : String
  deriving Repr, DecidableEq

/-- A persisted `Order` row (fields used by `OrderService.js` lines 107–115). -/
structure Order where
  id : Nat
  userId : Nat
  status : String
  totalAmount : Rat
  currency : String
  transactionId : String
  paymentMethod : String
  description : String
  createdAt : Nat
  deriving Repr, DecidableEq

/-- A persisted `OrderItem` row (`OrderService.js` lines 120–128). -/
structure OrderItem where
  orderId : Nat
  productId : Nat
  quantity : Int
  unitPrice : Rat
  subtotal : Rat
  deriving Repr, DecidableEq

/-- The local store as one request sees it: users, products, orders and
order items, a generator for order ids and a clock for `createdAt`. -/
structure State where
  users : List Nat
  products : List Product
  orders : List Order
  orderItems : List OrderItem
  nextOrderId : Nat
  now : Nat
  deriving Repr, DecidableEq

/-- The errors the order paths throw (`OrderService.js`), by construction site. -/
inductive Err where
  | userNotFound
  | productNotFound (productId : Nat)
  | insufficientStock (name : String) (available requested : Int)
  | paymentRejected (msg : String)
  | methodNotSpecified
  | unsupportedMethod (method : String)
  | orderNotFound
  | internal (msg : String)
  deriving Repr, DecidableEq

/-- `findOne(Game, { where: { id } })`: first product with the given id. -/
def findProduct (st : State) (pid : Nat) : Option Product :=
  st.products.find? (fun p => p.id == pid)

/-- The stock column of a product, when the product exists. -/
def stockOf (st : State) (pid : Nat) : Option Int :=
  (findProduct st pid).map Product.stock

/-- `manager.save(Game, product)`: write back a product row by id. -/
def saveProduct (st : State) (p : Product) : State :=
  { st with products := st.products.map (fun q => if q.id == p.id then p else q) }

/-- The validation loop of `createOrderWithPayment` (lines 50–75): for each
line in input order, load the product, fail if absent or if
`product.stock < item.quantity`, accumulate `subtotal = price * quantity`
into the total and record the pending item with the price frozen now.
No state is written here. -/
def validateItems (st : State) : List LineItem → Except Err (Rat × List ItemData)
  | [] => .ok (0, [])
  | item :: rest =>
    match findProduct st item.productId with
    | none => .error (.productNotFound item.productId)
    | some product =>
      if product.stock < item.quantity then
        .error (.insufficientStock product.name product.stock item.quantity)
      else
        let subtotal := product.price * (item.quantity : Rat)
        match validateItems st rest with
        | .error e => .error e
        | .ok (t, ds) =>
          .ok (subtotal + t, ⟨item.productId, item.quantity, product.price, subtotal⟩ :: ds)

/-- JS `String.prototype.toUpperCase`, on the ASCII range that covers the
payment tags this code compares against. -/
def jsToUpperCase (s : String) : String := ⟨s.data.map Char.toUpper⟩

/-- `OrderService.getPaymentStrategy` (lines 199–212): a falsy tag throws
"no especificado"; otherwise the upper-cased tag selects the strategy, the
only recognized one being CREDIT_CARD, and anything else throws
"no soportado". -/
def getPaymentStrategy (paymentMethod : String) : Except Err Unit :=
  if paymentMethod = "" then .error .methodNotSpecified
  else if jsToUpperCase paymentMethod = "CREDIT_CARD" then .ok ()
  else .error (.unsupportedMethod paymentMethod)

/-- JS `Math.round`: round half toward positive infinity, `⌊x + 1/2⌋`. -/
def jsRound (x : Rat) : Int := (x + 1 / 2).floor

/-- `Math.round(totalAmount * 100) / 100` (line 88). -/
def roundTo2 (x : Rat) : Rat := (jsRound (x * 100) : Rat) / 100

/-- The stock-mutation loop (lines 98–104): for each line, re-read the
product from the session and save `stock - quantity` back, with no further
check. A missing product here would make `product.stock -= …` throw a
`TypeError`, caught by the generic handler; validation guarantees presence,
so that branch is unreachable on the engine's own path. -/
def updateStockLoop : State → List LineItem → Except Err State
  | st, [] => .ok st
  | st, item :: rest =>
    match findProduct st item.productId with
    | none => .error (.internal "TypeError: cannot read stock of null")
    | some product =>
      updateStockLoop (saveProduct st { product with stock := product.stock - item.quantity }) rest

/-- `paymentData` as handed to the service (`{paymentMethod, currency, description, …}`;
card fields do not influence the embedded control flow and are carried by
the payment oracle instead). -/
structure PaymentData where
  paymentMethod : String
  currency : Option String
  description : Option String
  deriving Repr, DecidableEq

/-- What one call to `createOrderWithPayment` produces: the store afterward,
the returned order or thrown error, and the amounts sent to the payment
processor. -/
structure Outcome where
  state : State
  result : Except Err Order
  charges : List Rat
  deriving Repr

/-- `OrderService.createOrderWithPayment` (lines 34–146). Steps, with the
transaction rolling back (state unchanged) on every thrown error:
1. resolve the user; 2. validate all lines and price the cart (no writes);
3. select the payment strategy and charge the rounded total; 4. on payment
success only, run the stock-mutation loop; 5–6. persist the Order
(status COMPLETED, the processor's transactionId) and its OrderItems exactly
as computed in step 2; commit and return the saved order. -/
def createOrderWithPayment (st : State) (userId : Nat) (items : List LineItem)
    (paymentData : PaymentData) (processPayment : Rat → PaymentResult) : Outcome :=
  if ¬ st.users.contains userId then
    ⟨st, .error .userNotFound, []⟩
  else
    match validateItems st items with
    | .error e => ⟨st, .error e, []⟩
    | .ok (totalAmount, orderItemsData) =>
      match getPaymentStrategy paymentData.paymentMethod with
      | .error e => ⟨st, .error e, []⟩
      | .ok _ =>
        let amount := roundTo2 totalAmount
        let paymentResult := processPayment amount
        if ¬ paymentResult.success then
          ⟨st, .error (.paymentRejected paymentResult.message), [amount]⟩
        else
          match updateStockLoop st items with
          | .error e => ⟨st, .error e, [amount]⟩
          | .ok st1 =>
            let order : Order :=
              { id := st.nextOrderId
                userId := userId
                status := "COMPLETED"
                totalAmount := totalAmount
                currency := paymentData.currency.getD "USD"
                transactionId := paymentResult.transactionId
                paymentMethod := paymentData.paymentMethod
                description := paymentData.description.getD "Purchase"
                createdAt := st.now }
            let newItems := orderItemsData.map (fun d =>
              OrderItem.mk order.id d.productId d.quantity d.unitPrice d.subtotal)
            ⟨{ st1 with
                orders := st1.orders ++ [order]
                orderItems := st1.orderItems ++ newItems
                nextOrderId := st1.nextOrderId + 1
                now := st1.now + 1 },
             .ok order, [amount]⟩

/-! ## Order query service (`OrderService.js` lines 155–192) -/

/-- Stable insertion for `order: { createdAt: 'DESC' }`. -/
def insertByCreatedAtDesc (o : Order) : List Order → List Order
  | [] => [o]
  | x :: xs => if x.createdAt < o.createdAt then o :: x :: xs else x :: insertByCreatedAtDesc o xs

/-- Sort orders newest-first, as `findAndCount` does with
`order: { createdAt: 'DESC' }`. -/
def sortByCreatedAtDesc : List Order → List Order
  | [] => []
  | x :: xs => insertByCreatedAtDesc x (sortByCreatedAtDesc xs)

/-- What `getUserOrders` returns: `{items, total, page, limit, totalPages}`. -/
structure OrdersPage where
  items : List Order
  total : Nat
  page : Nat
  limit : Nat
  totalPages : Nat
  deriving Repr, DecidableEq

/-- `OrderService.getUserOrders` (lines 155–173): `findAndCount` filtered to
the caller's orders, newest first, with `skip = (page-1)*limit` and
`take = limit`; `total` counts all of the caller's orders and
`totalPages = Math.ceil(total / limit)` (`(total + limit - 1) / limit` for
the positive `limit` the controller allows). -/
def getUserOrders (st : State) (userId page limit : Nat) : OrdersPage :=
  let offset := (page - 1) * limit
  let mine := st.orders.filter (fun o => o.userId == userId)
  let items := ((sortByCreatedAtDesc mine).drop offset).take limit
  let total := mine.length
  { items := items, total := total, page := page, limit := limit
    totalPages := (total + limit - 1) / limit }

/-- `OrderService.getOrderById` (lines 181–192): `findOne` on
`{ id: orderId, user: { id: userId } }`; when nothing matches it throws
"Orden no encontrada o no pertenece al usuario". -/
def getOrderById (st : State) (orderId userId : Nat) : Except Err Order :=
  match st.orders.find? (fun o => o.id == orderId && o.userId == userId) with
  | none => .error .orderNotFound
  | some o => .ok o

/-- The effect on the store of the product-update endpoint
(`src/controllers/Product.js`, `update`) when the body carries a new price:
`merge` writes the price into the product row; the orders and order_items
tables are not touched. -/
def setProductPrice (st : State) (pid : Nat) (newPrice : Rat) : State :=
  { st with products :=
      st.products.map (fun p => if p.id == pid then { p with price := newPrice } else p) }

/-! ## HTTP boundary (`src/controllers/Order.js`) -/

/-- The exact message of each thrown `Error`, as interpolated in
`OrderService.js`; the boundary dispatches on substrings of these. -/
def errMessage : Err → String
  | .userNotFound => "Usuario no encontrado"
  | .productNotFound pid => "Producto " ++ toString pid ++ " no encontrado"
  | .insufficientStock name avail req =>
      "Stock insuficiente para " ++ name ++ ". Disponible: " ++ toString avail
        ++ ", Solicitado: " ++ toString req
  | .paymentRejected m => "Pago rechazado: " ++ m
  | .methodNotSpecified => "Método de pago no especificado"
  | .unsupportedMethod m => "Método de pago no soportado: " ++ m
  | .orderNotFound => "Orden no encontrada o no pertenece al usuario"
  | .internal m => m

/-- Whether `pat` occurs at the head of `l`. -/
def listStartsWith : List Char → List Char → Bool
  | _, [] => true
  | [], _ :: _ => false
  | a :: as, b :: bs => a == b && listStartsWith as bs

/-- Whether `pat` occurs somewhere in `l`. -/
def listContainsSub : List Char → List Char → Bool
  | [], pat => pat.isEmpty
  | a :: t, pat => listStartsWith (a :: t) pat || listContainsSub t pat

/-- JS `String.prototype.includes`. -/
def strIncludes (s pat : String) : Bool := listContainsSub s.data pat.data

/-- The catch block of `orderController.create` (lines 56–73): messages
containing "Stock insuficiente", "Pago rechazado" or "no encontrado" get
status 400; everything else falls to the generic 500 branch. -/
def createErrorStatus (e : Err) : Nat :=
  let m := errMessage e
  if strIncludes m "Stock insuficiente" || strIncludes m "Pago rechazado"
      || strIncludes m "no encontrado" then 400
  else 500

/-- The catch block of `orderController.getById` (lines 138–151): messages
containing "no encontrada" get 404, everything else 500. -/
def getByIdErrorStatus (e : Err) : Nat :=
  if strIncludes (errMessage e) "no encontrada" then 404 else 500

/-- The request body of `POST /orders` as the controller reads it; a card
field that is absent or empty is falsy in the `!cardNumber || …` check. -/
structure CreateRequestBody where
  items : Option (List LineItem)
  paymentMethod : Option String
  cardNumber : Option String
  cvv : Option String
  expirationMonth : Option String
  expirationYear : Option String
  fullName : Option String
  currency : Option String
  description : Option String
  deriving Repr

/-- JS truthiness of an optional string field: `undefined` and `""` are falsy. -/
def jsTruthy : Option String → Bool
  | none => false
  | some s => s != ""

/-- `orderController.create` (lines 12–74): shape validation (non-empty items
array, paymentMethod, all card fields present), then the engine; 201 on
success, otherwise the status from `createErrorStatus`. Returns the store
afterward, the HTTP status and the charge attempts made. -/
def createController (st : State) (userId : Nat) (body : CreateRequestBody)
    (processPayment : Rat → PaymentResult) : State × Nat × List Rat :=
  match body.items with
  | none => (st, 400, [])
  | some items =>
    if items.isEmpty then (st, 400, [])
    else if ¬ jsTruthy body.paymentMethod then (st, 400, [])
    else if ¬ (jsTruthy body.cardNumber && jsTruthy body.cvv && jsTruthy body.expirationMonth
        && jsTruthy body.expirationYear && jsTruthy body.fullName) then (st, 400, [])
    else
      let out := createOrderWithPayment st userId items
        { paymentMethod := body.paymentMethod.getD ""
          currency := some (if jsTruthy body.currency then body.currency.getD "" else "USD")
          description := some (if jsTruthy body.description then body.description.getD ""
            else "Compra de productos") }
        processPayment
      match out.result with
      | .ok _ => (out.state, 201, out.charges)
      | .error e => (out.state, createErrorStatus e, out.charges)

/-- `Number(req.query.x) || d`: absent and non-numeric queries give `NaN`,
and `NaN` and `0` are falsy, so they fall back to the default. -/
def jsNumberOr (q : Option Int) (dflt : Int) : Int :=
  match q with
  | none => dflt
  | some n => if n == 0 then dflt else n

/-- What `orderController.list` answers with. -/
inductive ListResponse where
  | badRequest
  | ok (items : List Order) (total : Nat) (page : Int) (limit : Int) (totalPages : Nat)
  deriving Repr, DecidableEq

/-- `orderController.list` (lines 80–114): defaults `page = 1`, `limit = 10`;
rejects `page < 1`, `limit < 1` and `limit > 50` with 400; otherwise returns
the service page plus `meta = {total, page, limit, totalPages}`. -/
def listController (st : State) (userId : Nat) (pageQ limitQ : Option Int) : ListResponse :=
  let page := jsNumberOr pageQ 1
  let limit := jsNumberOr limitQ 10
  if page < 1 || limit < 1 || limit > 50 then .badRequest
  else
    let r := getUserOrders st userId page.toNat limit.toNat
    .ok r.items r.total page limit r.totalPages

/-- `orderController.getById` (lines 120–152): a non-numeric or non-positive
id is rejected with 400 before the service runs; otherwise 200 on success
and `getByIdErrorStatus` on a thrown error. -/
def getByIdController (st : State) (userId : Nat) (orderIdParam : Option Int) : Nat :=
  match orderIdParam with
  | none => 400
  | some oid =>
    if oid ≤ 0 then 400
    else
      match getOrderById st oid.toNat userId with
      | .ok _ => 200
      | .error e => getByIdErrorStatus e

/-! ## Observables used to state the claims -/

/-- Total quantity a cart requests of one product (a product may appear on
several lines). -/
def sumQty (items : List LineItem) (pid : Nat) : Int :=
  (items.filter (fun i => i.productId == pid)).foldr (fun i a => i.quantity + a) 0

/-- What the claim "each decrement re-validates sufficiency" would require of
the mutation loop: at each step, the product exists and its current stock
covers the requested quantity. (The source loop performs no such check; this
predicate exists to state that claim.) -/
def decrementsRevalidated : State → List LineItem → Bool
  | _, [] => true
  | st, item :: rest =>
    match findProduct st item.productId with
    | none => false
    | some p => (item.quantity ≤ p.stock) &&
        decrementsRevalidated (saveProduct st { p with stock := p.stock - item.quantity }) rest

/-! ## Structural lemmas about the engine -/

/-- On any thrown error the transaction rolls back: the caller's state is
unchanged. -/
theorem createOrder_error_state (st : State) (u : Nat) (items : List LineItem)
    (pd : PaymentData) (pay : Rat → PaymentResult) (e : Err)
    (h : (createOrderWithPayment st u items pd pay).result = .error e) :
    (createOrderWithPayment st u items pd pay).state = st := by
  simp only [createOrderWithPayment] at h ⊢
  repeat' split at h
  all_goals simp_all

/-- A successful run decomposes into: user present, validation passed,
strategy recognized, payment succeeded, stock loop ran, and the committed
state appends exactly the Order and OrderItems built from validation. -/
theorem createOrder_ok_spec (st : State) (u : Nat) (items : List LineItem)
    (pd : PaymentData) (pay : Rat → PaymentResult) (o : Order)
    (h : (createOrderWithPayment st u items pd pay).result = .ok o) :
    ∃ t ds st1,
      st.users.contains u = true ∧
      validateItems st items = .ok (t, ds) ∧
      getPaymentStrategy pd.paymentMethod = .ok () ∧
      (pay (roundTo2 t)).success = true ∧
      updateStockLoop st items = .ok st1 ∧
      o = { id := st.nextOrderId, userId := u, status := "COMPLETED", totalAmount := t,
            currency := pd.currency.getD "USD",
            transactionId := (pay (roundTo2 t)).transactionId,
            paymentMethod := pd.paymentMethod,
            description := pd.description.getD "Purchase", createdAt := st.now } ∧
      (createOrderWithPayment st u items pd pay).state =
        { st1 with
            orders := st1.orders ++ [o]
            orderItems := st1.orderItems ++ ds.map (fun d =>
              OrderItem.mk o.id d.productId d.quantity d.unitPrice d.subtotal)
            nextOrderId := st1.nextOrderId + 1
            now := st1.now + 1 } := by
  simp only [createOrderWithPayment] at h ⊢
  repeat' split at h
  all_goals simp_all
  refine ⟨_, _, ⟨rfl, rfl⟩, ?_, h.symm, ?_⟩
  · assumption
  · rw [← h]

/-- `find?` by id commutes with mapping an id-preserving function. -/
theorem find?_map_of_id (f : Product → Product) (hf : ∀ p, (f p).id = p.id) :
    ∀ (l : List Product) (pid : Nat),
      (l.map f).find? (fun p => p.id == pid) = (l.find? (fun p => p.id == pid)).map f
  | [], _ => rfl
  | a :: l, pid => by
    by_cases h : (a.id == pid) = true
    · rw [List.map_cons, List.find?_cons_of_pos, List.find?_cons_of_pos] <;>
        simp [hf, h]
    · rw [List.map_cons, List.find?_cons_of_neg, List.find?_cons_of_neg]
      · exact find?_map_of_id f hf l pid
      · simpa using h
      · simpa [hf] using h

/-- Reading a product after `saveProduct` sees the written row when the ids
match and the old row otherwise. -/
theorem findProduct_saveProduct (st : State) (p' : Product) (pid : Nat) :
    findProduct (saveProduct st p') pid =
      (findProduct st pid).map (fun q => if q.id == p'.id then p' else q) := by
  unfold findProduct saveProduct
  apply find?_map_of_id
  intro q
  by_cases h : q.id == p'.id <;> simp_all

/-- The stock loop touches only the products table. -/
theorem updateStockLoop_frame :
    ∀ (items : List LineItem) (st st' : State), updateStockLoop st items = .ok st' →
      st'.users = st.users ∧ st'.orders = st.orders ∧ st'.orderItems = st.orderItems ∧
      st'.nextOrderId = st.nextOrderId ∧ st'.now = st.now
  | [], st, st', h => by
    simp only [updateStockLoop] at h
    cases h
    exact ⟨rfl, rfl, rfl, rfl, rfl⟩
  | item :: rest, st, st', h => by
    simp only [updateStockLoop] at h
    split at h
    · cases h
    · obtain ⟨h1, h2, h3, h4, h5⟩ := updateStockLoop_frame rest _ _ h
      exact ⟨h1, h2, h3, h4, h5⟩

theorem sumQty_cons (i : LineItem) (rest : List LineItem) (pid : Nat) :
    sumQty (i :: rest) pid =
      (if i.productId == pid then i.quantity else 0) + sumQty rest pid := by
  by_cases h : (i.productId == pid) = true <;> simp [sumQty, List.filter, h]

/-- After a completed stock loop, each product's row is its old row with the
stock decremented by the cart's total quantity for that product — with no
sufficiency condition anywhere. -/
theorem updateStockLoop_ok_find :
    ∀ (items : List LineItem) (st st' : State), updateStockLoop st items = .ok st' →
      ∀ pid : Nat, findProduct st' pid =
        (findProduct st pid).map (fun p => { p with stock := p.stock - sumQty items pid })
  | [], st, st', h, pid => by
    simp only [updateStockLoop] at h
    cases h
    have h0 : sumQty ([] : List LineItem) pid = 0 := rfl
    simp [h0]
  | item :: rest, st, st', h, pid => by
    simp only [updateStockLoop] at h
    split at h
    · cases h
    · rename_i q hq
      have ih := updateStockLoop_ok_find rest _ _ h pid
      rw [ih, findProduct_saveProduct, Option.map_map, sumQty_cons]
      have hqid : q.id = item.productId := by
        have := List.find?_some hq
        simpa using this
      cases hr : findProduct st pid with
      | none => simp
      | some r =>
        have hrid : r.id = pid := by
          have := List.find?_some hr
          simpa using this
        by_cases hpp : item.productId = pid
        · have hrq : r = q := by
            rw [← hpp] at hr
            rw [hq] at hr
            exact (Option.some_inj.mp hr).symm
          simp only [Option.map_some, Function.comp]
          rw [hrq]
          simp [hqid, hpp, Int.sub_sub]
        · have hpp2 : ¬ pid = item.productId := fun hh => hpp hh.symm
          simp only [Option.map_some, Function.comp]
          simp [hrid, hqid, hpp, hpp2]

/-- Every pending item built by validation carries the price of the product
as read at validation time, and a subtotal equal to that price times the
quantity. -/
theorem validateItems_prices :
    ∀ (items : List LineItem) (st : State) (t : Rat) (ds : List ItemData),
      validateItems st items = .ok (t, ds) →
      ∀ d ∈ ds, ∃ p, findProduct st d.productId = some p ∧
        d.unitPrice = p.price ∧ d.subtotal = p.price * (d.quantity : Rat)
  | [], st, t, ds, h => by
    simp only [validateItems] at h
    cases h
    intro d hd
    cases hd
  | item :: rest, st, t, ds, h => by
    simp only [validateItems] at h
    split at h
    · cases h
    · rename_i p hp
      split at h
      · cases h
      · split at h
        · cases h
        · rename_i t' ds' hrest
          cases h
          intro d hd
          cases hd with
          | head => exact ⟨p, hp, rfl, rfl⟩
          | tail _ hmem => exact validateItems_prices rest st t' ds' hrest d hmem

/-- `find?` is blind to elements a filter removes, when the search predicate
implies the filter's. -/
theorem find?_filter_of_imp (p q : Order → Bool) (himp : ∀ o, p o = true → q o = true) :
    ∀ l : List Order, (l.filter q).find? p = l.find? p
  | [] => rfl
  | a :: l => by
    by_cases hq : q a = true
    · rw [List.filter_cons_of_pos hq]
      by_cases hp : p a = true
      · rw [List.find?_cons_of_pos _ hp, List.find?_cons_of_pos _ hp]
      · rw [List.find?_cons_of_neg _ (by simpa using hp),
          List.find?_cons_of_neg _ (by simpa using hp)]
        exact find?_filter_of_imp p q himp l
    · rw [List.filter_cons_of_neg (by simpa using hq)]
      have hp : ¬ p a = true := fun hc => hq (himp a hc)
      rw [List.find?_cons_of_neg _ (by simpa using hp)]
      exact find?_filter_of_imp p q himp l

theorem mem_insertByCreatedAtDesc {o x : Order} :
    ∀ {l : List Order}, o ∈ insertByCreatedAtDesc x l → o = x ∨ o ∈ l
  | [], h => by simpa [insertByCreatedAtDesc] using h
  | a :: l, h => by
    simp only [insertByCreatedAtDesc] at h
    split at h
    · rcases List.mem_cons.mp h with h1 | h1
      · exact Or.inl h1
      · exact Or.inr h1
    · rcases List.mem_cons.mp h with h1 | h1
      · exact Or.inr (List.mem_cons.mpr (Or.inl h1))
      · rcases mem_insertByCreatedAtDesc h1 with h2 | h2
        · exact Or.inl h2
        · exact Or.inr (List.mem_cons.mpr (Or.inr h2))

theorem mem_sortByCreatedAtDesc {o : Order} :
    ∀ {l : List Order}, o ∈ sortByCreatedAtDesc l → o ∈ l
  | [], h => by simp [sortByCreatedAtDesc] at h
  | a :: l, h => by
    simp only [sortByCreatedAtDesc] at h
    rcases mem_insertByCreatedAtDesc h with h1 | h1
    · simp [h1]
    · exact List.mem_cons.mpr (Or.inr (mem_sortByCreatedAtDesc h1))

/-! ## Substring dispatch at the boundary -/

theorem strDataAppend (s t : String) : (s ++ t).data = s.data ++ t.data := rfl

theorem listStartsWith_nil (l : List Char) : listStartsWith l [] = true := by
  cases l <;> rfl

theorem listStartsWith_append :
    ∀ (pat a t : List Char), listStartsWith a pat = true → listStartsWith (a ++ t) pat = true
  | [], a, t, _ => listStartsWith_nil _
  | b :: bs, [], t, h => by simp [listStartsWith] at h
  | b :: bs, x :: xs, t, h => by
    simp only [listStartsWith, Bool.and_eq_true] at h
    simp only [List.cons_append, listStartsWith, Bool.and_eq_true]
    exact ⟨h.1, listStartsWith_append bs xs t h.2⟩

theorem listContainsSub_of_startsWith (l pat : List Char)
    (h : listStartsWith l pat = true) : listContainsSub l pat = true := by
  cases l with
  | nil =>
    cases pat with
    | nil => rfl
    | cons b bs => simp [listStartsWith] at h
  | cons x xs => simp [listContainsSub, h]

theorem listContainsSub_append_left :
    ∀ (a t pat : List Char), listContainsSub t pat = true → listContainsSub (a ++ t) pat = true
  | [], t, pat, h => h
  | x :: xs, t, pat, h => by
    simp only [List.cons_append, listContainsSub, Bool.or_eq_true]
    exact Or.inr (listContainsSub_append_left xs t pat h)

theorem createErrorStatus_userNotFound : createErrorStatus .userNotFound = 400 := by decide

theorem createErrorStatus_productNotFound (pid : Nat) :
    createErrorStatus (.productNotFound pid) = 400 := by
  have h : strIncludes ("Producto " ++ toString pid ++ " no encontrado") "no encontrado" = true := by
    show listContainsSub (("Producto " ++ toString pid ++ " no encontrado").data)
      ("no encontrado".data) = true
    rw [strDataAppend, strDataAppend, List.append_assoc]
    exact listContainsSub_append_left _ _ _
      (listContainsSub_append_left _ _ _ (by decide))
  simp [createErrorStatus, errMessage, h]

theorem createErrorStatus_insufficientStock (nm : String) (avail req : Int) :
    createErrorStatus (.insufficientStock nm avail req) = 400 := by
  have h : strIncludes
      ("Stock insuficiente para " ++ nm ++ ". Disponible: " ++ toString avail
        ++ ", Solicitado: " ++ toString req) "Stock insuficiente" = true := by
    show listContainsSub _ _ = true
    rw [strDataAppend, strDataAppend, strDataAppend, strDataAppend, strDataAppend]
    refine listContainsSub_of_startsWith _ _ ?_
    rw [List.append_assoc, List.append_assoc, List.append_assoc, List.append_assoc]
    exact listStartsWith_append _ _ _ (by decide)
  simp [createErrorStatus, errMessage, h]

theorem createErrorStatus_paymentRejected (m : String) :
    createErrorStatus (.paymentRejected m) = 400 := by
  have h : strIncludes ("Pago rechazado: " ++ m) "Pago rechazado" = true := by
    show listContainsSub _ _ = true
    rw [strDataAppend]
    exact listContainsSub_of_startsWith _ _ (listStartsWith_append _ _ _ (by decide))
  simp [createErrorStatus, errMessage, h]

theorem createErrorStatus_internal (m : String)
    (h1 : strIncludes m "Stock insuficiente" = false)
    (h2 : strIncludes m "Pago rechazado" = false)
    (h3 : strIncludes m "no encontrado" = false) :
    createErrorStatus (.internal m) = 500 := by
  simp [createErrorStatus, errMessage, h1, h2, h3]

theorem getByIdErrorStatus_orderNotFound : getByIdErrorStatus .orderNotFound = 404 := by decide

theorem getByIdErrorStatus_internal (m : String)
    (h : strIncludes m "no encontrada" = false) :
    getByIdErrorStatus (.internal m) = 500 := by
  simp [getByIdErrorStatus, errMessage, h]

/-! ## Claims C1-C3 -/


def demoState : State := ⟨[7], [⟨1, "P", 10, 10⟩], [], [], 1, 0⟩

def demoPay : Rat → PaymentResult := fun _ => ⟨true, "TX1", "approved"⟩

def demoOrder : Order := ⟨1, 7, "COMPLETED", 20, "USD", "TX1", "CREDIT_CARD", "Purchase", 0⟩

theorem demoRun_ok :
    (createOrderWithPayment demoState 7 [⟨1, 2⟩] ⟨"CREDIT_CARD", none, none⟩ demoPay).result
      = .ok demoOrder := by
  simp +decide [createOrderWithPayment, validateItems, findProduct, getPaymentStrategy,
    jsToUpperCase, updateStockLoop, saveProduct, demoState, demoPay, demoOrder]
  norm_num

/-- C1: a checkout that fails in steps 1-4 (or anywhere) leaves the store
exactly as it was: same stocks, same orders, same order items. -/
theorem checkout_failure_is_side_effect_free (st : State) (userId : Nat)
    (items : List LineItem) (pd : PaymentData) (pay : Rat → PaymentResult) (e : Err)
    (h : (createOrderWithPayment st userId items pd pay).result = .error e) :
    (createOrderWithPayment st userId items pd pay).state = st ∧
    (∀ pid, stockOf (createOrderWithPayment st userId items pd pay).state pid = stockOf st pid) ∧
    (createOrderWithPayment st userId items pd pay).state.orders = st.orders ∧
    (createOrderWithPayment st userId items pd pay).state.orderItems = st.orderItems := by
  have hs := createOrder_error_state st userId items pd pay e h
  exact ⟨hs, fun pid => by rw [hs], by rw [hs], by rw [hs]⟩

theorem checkout_failure_is_side_effect_free_witness :
    (createOrderWithPayment ⟨[1], [⟨1, "P", 10, 3⟩], [], [], 1, 0⟩ 1 [⟨1, 5⟩]
      ⟨"CREDIT_CARD", none, none⟩ (fun _ => ⟨true, "TX", "ok"⟩)).result
        = .error (.insufficientStock "P" 3 5) ∧
    (createOrderWithPayment ⟨[1], [⟨1, "P", 10, 3⟩], [], [], 1, 0⟩ 1 [⟨1, 5⟩]
      ⟨"CREDIT_CARD", none, none⟩ (fun _ => ⟨true, "TX", "ok"⟩)).state
        = ⟨[1], [⟨1, "P", 10, 3⟩], [], [], 1, 0⟩ :=
  ⟨by decide,
   (checkout_failure_is_side_effect_free _ _ _ _ _ (.insufficientStock "P" 3 5) (by decide)).1⟩

/-- C2 (violation exhibit): with product 1 at stock 10, a cart listing product 1
twice with quantity 6 each passes validation, the payment succeeds, the order is
created, and the final stock is -2. -/
theorem duplicate_lines_drive_stock_negative :
    (createOrderWithPayment ⟨[7], [⟨1, "P", 10, 10⟩], [], [], 1, 0⟩ 7 [⟨1, 6⟩, ⟨1, 6⟩]
      ⟨"CREDIT_CARD", none, none⟩ (fun _ => ⟨true, "TX1", "ok"⟩)).result.isOk = true ∧
    stockOf (createOrderWithPayment ⟨[7], [⟨1, "P", 10, 10⟩], [], [], 1, 0⟩ 7 [⟨1, 6⟩, ⟨1, 6⟩]
      ⟨"CREDIT_CARD", none, none⟩ (fun _ => ⟨true, "TX1", "ok"⟩)).state 1 = some (-2) := by
  decide

/-- C3 counterexample: a successful checkout in which the second decrement was
applied although the product's stock at that moment (1) was below the requested
quantity (3) — no re-validation happened, and stock ends at -2. -/
theorem stock_decrement_skips_revalidation_cx :
    (createOrderWithPayment ⟨[3], [⟨2, "Q", 5, 4⟩], [], [], 1, 0⟩ 3 [⟨2, 3⟩, ⟨2, 3⟩]
      ⟨"CREDIT_CARD", none, none⟩ (fun _ => ⟨true, "TX9", "approved"⟩)).result.isOk = true ∧
    stockOf (createOrderWithPayment ⟨[3], [⟨2, "Q", 5, 4⟩], [], [], 1, 0⟩ 3 [⟨2, 3⟩, ⟨2, 3⟩]
      ⟨"CREDIT_CARD", none, none⟩ (fun _ => ⟨true, "TX9", "approved"⟩)).state 2 = some (-2) ∧
    decrementsRevalidated ⟨[3], [⟨2, "Q", 5, 4⟩], [], [], 1, 0⟩ [⟨2, 3⟩, ⟨2, 3⟩] = false := by
  decide

/-- C3 amended: stock is mutated only after the payment capability reports
success, and each product's stock is then decremented unconditionally by the
cart's total quantity for it, with no re-validation of sufficiency. -/
theorem stock_mutation_after_payment_unconditional (st : State) (u : Nat)
    (items : List LineItem) (pd : PaymentData) (pay : Rat → PaymentResult) :
    ((∀ a, (pay a).success = false) → (createOrderWithPayment st u items pd pay).state = st) ∧
    (∀ pid p, (createOrderWithPayment st u items pd pay).result.isOk = true →
      findProduct st pid = some p →
      stockOf (createOrderWithPayment st u items pd pay).state pid
        = some (p.stock - sumQty items pid)) := by
  constructor
  · intro hfail
    cases hres : (createOrderWithPayment st u items pd pay).result with
    | error e => exact createOrder_error_state st u items pd pay e hres
    | ok o =>
      obtain ⟨t, ds, st1, _, _, _, hsucc, _⟩ := createOrder_ok_spec st u items pd pay o hres
      rw [hfail (roundTo2 t)] at hsucc
      cases hsucc
  · intro pid p hok hp
    cases hres : (createOrderWithPayment st u items pd pay).result with
    | error e => rw [hres] at hok; simp [Except.isOk, Except.toBool] at hok
    | ok o =>
      obtain ⟨t, ds, st1, _, _, _, _, hloop, _, hstate⟩ :=
        createOrder_ok_spec st u items pd pay o hres
      have hfind := updateStockLoop_ok_find items st st1 hloop pid
      rw [hp] at hfind
      have hprods : (createOrderWithPayment st u items pd pay).state.products = st1.products := by
        rw [hstate]
      unfold stockOf findProduct
      rw [hprods]
      unfold findProduct at hfind
      rw [hfind]
      rfl

theorem stock_mutation_after_payment_unconditional_witness :
    (createOrderWithPayment ⟨[4], [⟨3, "R", 10, 7⟩], [], [], 1, 0⟩ 4 [⟨3, 2⟩]
      ⟨"CREDIT_CARD", none, none⟩ (fun _ => ⟨false, "", "declined"⟩)).state
        = ⟨[4], [⟨3, "R", 10, 7⟩], [], [], 1, 0⟩ ∧
    stockOf (createOrderWithPayment ⟨[4], [⟨3, "R", 10, 7⟩], [], [], 1, 0⟩ 4 [⟨3, 2⟩]
      ⟨"CREDIT_CARD", none, none⟩ (fun _ => ⟨true, "T", "ok"⟩)).state 3
        = some (7 - sumQty [⟨3, 2⟩] 3) :=
  ⟨(stock_mutation_after_payment_unconditional _ 4 _ _ _).1 (fun _ => rfl),
   (stock_mutation_after_payment_unconditional _ 4 _ _ _).2 3 ⟨3, "R", 10, 7⟩
     (by decide) (by decide)⟩

/-! ## Claims C4 and C9 -/


/-- C4: on success, the persisted OrderItems are exactly those computed during
validation — unitPrice frozen from the product price read then, subtotal =
price * quantity — and a later product price change touches neither the
orders nor the order_items tables. -/
theorem order_items_price_frozen (st : State) (u : Nat) (items : List LineItem)
    (pd : PaymentData) (pay : Rat → PaymentResult) (o : Order)
    (h : (createOrderWithPayment st u items pd pay).result = .ok o) :
    ∃ ds, validateItems st items = .ok (o.totalAmount, ds) ∧
      (createOrderWithPayment st u items pd pay).state.orderItems =
        st.orderItems ++ ds.map (fun d =>
          OrderItem.mk o.id d.productId d.quantity d.unitPrice d.subtotal) ∧
      (∀ d ∈ ds, ∃ p, findProduct st d.productId = some p ∧
          d.unitPrice = p.price ∧ d.subtotal = p.price * (d.quantity : Rat)) ∧
      (∀ pid newPrice,
        (setProductPrice (createOrderWithPayment st u items pd pay).state pid newPrice).orderItems
          = (createOrderWithPayment st u items pd pay).state.orderItems ∧
        (setProductPrice (createOrderWithPayment st u items pd pay).state pid newPrice).orders
          = (createOrderWithPayment st u items pd pay).state.orders) := by
  obtain ⟨t, ds, st1, hu, hv, hstr, hsucc, hloop, ho, hstate⟩ :=
    createOrder_ok_spec st u items pd pay o h
  subst ho
  refine ⟨ds, hv, ?_, validateItems_prices items st t ds hv, fun pid np => ⟨rfl, rfl⟩⟩
  rw [hstate]
  have hframe := (updateStockLoop_frame items st st1 hloop).2.2.1
  simp [hframe]

theorem order_items_price_frozen_witness :
    ∃ ds, validateItems demoState [⟨1, 2⟩] = .ok (demoOrder.totalAmount, ds) ∧
      (createOrderWithPayment demoState 7 [⟨1, 2⟩] ⟨"CREDIT_CARD", none, none⟩
        demoPay).state.orderItems =
        demoState.orderItems ++ ds.map (fun d =>
          OrderItem.mk demoOrder.id d.productId d.quantity d.unitPrice d.subtotal) ∧
      (∀ d ∈ ds, ∃ p, findProduct demoState d.productId = some p ∧
          d.unitPrice = p.price ∧ d.subtotal = p.price * (d.quantity : Rat)) ∧
      (∀ pid newPrice,
        (setProductPrice (createOrderWithPayment demoState 7 [⟨1, 2⟩]
            ⟨"CREDIT_CARD", none, none⟩ demoPay).state pid newPrice).orderItems
          = (createOrderWithPayment demoState 7 [⟨1, 2⟩]
              ⟨"CREDIT_CARD", none, none⟩ demoPay).state.orderItems ∧
        (setProductPrice (createOrderWithPayment demoState 7 [⟨1, 2⟩]
            ⟨"CREDIT_CARD", none, none⟩ demoPay).state pid newPrice).orders
          = (createOrderWithPayment demoState 7 [⟨1, 2⟩]
              ⟨"CREDIT_CARD", none, none⟩ demoPay).state.orders) :=
  order_items_price_frozen demoState 7 [⟨1, 2⟩] ⟨"CREDIT_CARD", none, none⟩
    demoPay demoOrder demoRun_ok

/-- C9: the synchronous checkout path persists an Order only on payment
success, always with status COMPLETED and the processor's transactionId;
on failure the orders table is untouched, so no PENDING or PAYMENT_FAILED
row can ever appear. -/
theorem persisted_orders_completed (st : State) (u : Nat) (items : List LineItem)
    (pd : PaymentData) (pay : Rat → PaymentResult) :
    (∀ o, (createOrderWithPayment st u items pd pay).result = .ok o →
      (createOrderWithPayment st u items pd pay).state.orders = st.orders ++ [o] ∧
      o.status = "COMPLETED" ∧
      ∃ t ds, validateItems st items = .ok (t, ds) ∧
        (pay (roundTo2 t)).success = true ∧
        o.transactionId = (pay (roundTo2 t)).transactionId) ∧
    (∀ e, (createOrderWithPayment st u items pd pay).result = .error e →
      (createOrderWithPayment st u items pd pay).state.orders = st.orders) ∧
    (∀ o ∈ (createOrderWithPayment st u items pd pay).state.orders,
      o ∈ st.orders ∨ o.status = "COMPLETED") := by
  have hok : ∀ o, (createOrderWithPayment st u items pd pay).result = .ok o →
      (createOrderWithPayment st u items pd pay).state.orders = st.orders ++ [o] ∧
      o.status = "COMPLETED" ∧
      ∃ t ds, validateItems st items = .ok (t, ds) ∧
        (pay (roundTo2 t)).success = true ∧
        o.transactionId = (pay (roundTo2 t)).transactionId := by
    intro o h
    obtain ⟨t, ds, st1, hu, hv, hstr, hsucc, hloop, ho, hstate⟩ :=
      createOrder_ok_spec st u items pd pay o h
    have hframe := (updateStockLoop_frame items st st1 hloop).2.1
    constructor
    · rw [hstate]
      simp [hframe]
    · exact ⟨by rw [ho], t, ds, hv, hsucc, by rw [ho]⟩
  refine ⟨hok, ?_, ?_⟩
  · intro e h
    rw [createOrder_error_state st u items pd pay e h]
  · intro o hmem
    cases hres : (createOrderWithPayment st u items pd pay).result with
    | error e =>
      rw [createOrder_error_state st u items pd pay e hres] at hmem
      exact Or.inl hmem
    | ok o' =>
      obtain ⟨horders, hstatus, _⟩ := hok o' hres
      rw [horders] at hmem
      rcases List.mem_append.mp hmem with h1 | h1
      · exact Or.inl h1
      · rcases List.mem_singleton.mp h1 with rfl
        exact Or.inr hstatus

theorem persisted_orders_completed_witness :
    ((createOrderWithPayment demoState 7 [⟨1, 2⟩] ⟨"CREDIT_CARD", none, none⟩
        demoPay).state.orders = demoState.orders ++ [demoOrder] ∧
      demoOrder.status = "COMPLETED" ∧
      ∃ t ds, validateItems demoState [⟨1, 2⟩] = .ok (t, ds) ∧
        (demoPay (roundTo2 t)).success = true ∧
        demoOrder.transactionId = (demoPay (roundTo2 t)).transactionId) ∧
    (createOrderWithPayment demoState 9 [⟨1, 2⟩] ⟨"CREDIT_CARD", none, none⟩
        demoPay).state.orders = demoState.orders ∧
    (demoOrder ∈ demoState.orders ∨ demoOrder.status = "COMPLETED") := by
  refine ⟨(persisted_orders_completed demoState 7 [⟨1, 2⟩]
      ⟨"CREDIT_CARD", none, none⟩ demoPay).1 demoOrder demoRun_ok, ?_, ?_⟩
  · exact (persisted_orders_completed demoState 9 [⟨1, 2⟩]
      ⟨"CREDIT_CARD", none, none⟩ demoPay).2.1 .userNotFound (by decide)
  · have h1 := (persisted_orders_completed demoState 7 [⟨1, 2⟩]
      ⟨"CREDIT_CARD", none, none⟩ demoPay).1 demoOrder demoRun_ok
    exact (persisted_orders_completed demoState 7 [⟨1, 2⟩]
      ⟨"CREDIT_CARD", none, none⟩ demoPay).2.2 demoOrder
      (h1.1 ▸ List.mem_append_right _ (List.mem_singleton.mpr rfl))

/-! ## Claim C10 -/


/-- A one-line cart whose (possibly non-positive) quantity passes the
`stock < quantity` test runs through the whole engine when the user exists,
the tag is recognized and the processor approves. -/
theorem createOrder_singleton_ok (st : State) (u pid : Nat) (p : Product) (q : Int)
    (pd : PaymentData) (pay : Rat → PaymentResult)
    (hu : st.users.contains u = true) (hp : findProduct st pid = some p)
    (hcond : ¬ (p.stock < q))
    (hstr : getPaymentStrategy pd.paymentMethod = .ok ())
    (hpay : ∀ a, (pay a).success = true) :
    (createOrderWithPayment st u [⟨pid, q⟩] pd pay).result
      = .ok { id := st.nextOrderId, userId := u, status := "COMPLETED",
              totalAmount := p.price * (q : Rat) + 0,
              currency := pd.currency.getD "USD",
              transactionId := (pay (roundTo2 (p.price * (q : Rat) + 0))).transactionId,
              paymentMethod := pd.paymentMethod,
              description := pd.description.getD "Purchase",
              createdAt := st.now } := by
  have hval : validateItems st [⟨pid, q⟩]
      = .ok (p.price * (q : Rat) + 0, [⟨pid, q, p.price, p.price * (q : Rat)⟩]) := by
    simp only [validateItems, hp]
    rw [if_neg hcond]
  have hloop : updateStockLoop st [⟨pid, q⟩]
      = .ok (saveProduct st { p with stock := p.stock - q }) := by
    simp [updateStockLoop, hp]
  simp only [createOrderWithPayment, hu, hval, hstr, hloop, hpay]
  simp

/-- C10: the engine accepts a zero or negative quantity for an in-stock
product — validation passes, the subtotal `price * quantity` enters the
total, the order is created, the stock is decremented by the quantity (so a
negative quantity increases it) — and the checkout endpoint, which validates
only the presence of fields, answers 201. -/
theorem nonpositive_quantity_accepted (st : State) (u pid : Nat) (p : Product) (q : Int)
    (pay : Rat → PaymentResult)
    (hu : st.users.contains u = true)
    (hp : findProduct st pid = some p)
    (hs : 0 ≤ p.stock)
    (hq : q ≤ 0)
    (hpay : ∀ a, (pay a).success = true) :
    ∃ o, (createOrderWithPayment st u [⟨pid, q⟩] ⟨"CREDIT_CARD", none, none⟩ pay).result
        = .ok o ∧
      o.totalAmount = p.price * (q : Rat) ∧
      stockOf (createOrderWithPayment st u [⟨pid, q⟩]
        ⟨"CREDIT_CARD", none, none⟩ pay).state pid = some (p.stock - q) ∧
      p.stock ≤ p.stock - q ∧
      (createController st u ⟨some [⟨pid, q⟩], some "CREDIT_CARD", some "4111111111111111",
        some "123", some "12", some "2030", some "John Doe", none, none⟩ pay).2.1 = 201 := by
  have hcond : ¬ (p.stock < q) := by omega
  have hstr : getPaymentStrategy "CREDIT_CARD" = .ok () := rfl
  have hres := createOrder_singleton_ok st u pid p q ⟨"CREDIT_CARD", none, none⟩ pay
    hu hp hcond hstr hpay
  refine ⟨_, hres, by simp, ?_, by omega, ?_⟩
  · obtain ⟨t, ds, st1, _, _, _, _, hloop, _, hstate⟩ :=
      createOrder_ok_spec st u [⟨pid, q⟩] ⟨"CREDIT_CARD", none, none⟩ pay _ hres
    have hfind := updateStockLoop_ok_find [⟨pid, q⟩] st st1 hloop pid
    rw [hp] at hfind
    have hsq : sumQty [⟨pid, q⟩] pid = q := by simp [sumQty]
    have hprods : (createOrderWithPayment st u [⟨pid, q⟩]
        ⟨"CREDIT_CARD", none, none⟩ pay).state.products = st1.products := by
      rw [hstate]
    unfold stockOf findProduct
    rw [hprods]
    unfold findProduct at hfind
    rw [hfind, hsq]
    rfl
  · have hres2 := createOrder_singleton_ok st u pid p q
      ⟨"CREDIT_CARD", some "USD", some "Compra de productos"⟩ pay hu hp hcond hstr hpay
    simp only [createController]
    simp [hres2, jsTruthy]

theorem nonpositive_quantity_accepted_witness :
    (0 ≤ (10 : Int) ∧ (-3 : Int) ≤ 0) ∧
    ∃ o, (createOrderWithPayment ⟨[7], [⟨1, "P", 10, 10⟩], [], [], 1, 0⟩ 7 [⟨1, -3⟩]
        ⟨"CREDIT_CARD", none, none⟩ (fun _ => ⟨true, "TX1", "approved"⟩)).result = .ok o ∧
      o.totalAmount = (10 : Rat) * ((-3 : Int) : Rat) ∧
      stockOf (createOrderWithPayment ⟨[7], [⟨1, "P", 10, 10⟩], [], [], 1, 0⟩ 7 [⟨1, -3⟩]
        ⟨"CREDIT_CARD", none, none⟩ (fun _ => ⟨true, "TX1", "approved"⟩)).state 1
        = some ((10 : Int) - (-3)) ∧
      (10 : Int) ≤ 10 - (-3) ∧
      (createController ⟨[7], [⟨1, "P", 10, 10⟩], [], [], 1, 0⟩ 7
        ⟨some [⟨1, -3⟩], some "CREDIT_CARD", some "4111111111111111",
          some "123", some "12", some "2030", some "John Doe", none, none⟩
        (fun _ => ⟨true, "TX1", "approved"⟩)).2.1 = 201 :=
  ⟨⟨by decide, by decide⟩,
   nonpositive_quantity_accepted ⟨[7], [⟨1, "P", 10, 10⟩], [], [], 1, 0⟩ 7 1
     ⟨1, "P", 10, 10⟩ (-3) (fun _ => ⟨true, "TX1", "approved"⟩)
     (by decide) (by decide) (by decide) (by decide) (fun _ => rfl)⟩

/-! ## Claims C5 and C7 -/


/-- C5 counterexample: a full checkout with the unrecognized tag PAYPAL is
answered with HTTP 500 — the generic internal-error branch — not a
caller-error class response. -/
theorem unsupported_method_surfaces_as_500_cx :
    (createController ⟨[1], [⟨1, "P", 10, 5⟩], [], [], 1, 0⟩ 1
      ⟨some [⟨1, 1⟩], some "PAYPAL", some "4111111111111111", some "123", some "12",
        some "2030", some "John Doe", none, none⟩ (fun _ => ⟨true, "T", "ok"⟩)).2.1 = 500 ∧
    createErrorStatus (.unsupportedMethod "PAYPAL") = 500 := by
  exact ⟨by decide, by decide⟩

/-- C5 amended: an unrecognized payment tag makes the engine throw the
unsupported-method error with no charge attempted and no state change, but
the boundary's create handler maps it through its generic branch as a
500-class internal error (e.g. for tag PAYPAL), not as a caller-error
response. -/
theorem unsupported_method_no_charge_no_mutation (st : State) (u : Nat)
    (items : List LineItem) (pd : PaymentData) (pay : Rat → PaymentResult)
    (t : Rat) (ds : List ItemData)
    (hu : st.users.contains u = true)
    (hv : validateItems st items = .ok (t, ds))
    (hpm1 : pd.paymentMethod ≠ "")
    (hpm2 : jsToUpperCase pd.paymentMethod ≠ "CREDIT_CARD") :
    (createOrderWithPayment st u items pd pay).result
      = .error (.unsupportedMethod pd.paymentMethod) ∧
    (createOrderWithPayment st u items pd pay).state = st ∧
    (createOrderWithPayment st u items pd pay).charges = [] ∧
    createErrorStatus (.unsupportedMethod "PAYPAL") = 500 := by
  have hstr : getPaymentStrategy pd.paymentMethod
      = .error (.unsupportedMethod pd.paymentMethod) := by
    unfold getPaymentStrategy
    rw [if_neg hpm1, if_neg hpm2]
  simp only [createOrderWithPayment, hu, hv, hstr]
  refine ⟨by simp, by simp, by simp, by decide⟩

theorem unsupported_method_no_charge_no_mutation_witness :
    (createOrderWithPayment ⟨[1], [], [], [], 1, 0⟩ 1 [] ⟨"PAYPAL", none, none⟩
      (fun _ => ⟨true, "T", "ok"⟩)).result = .error (.unsupportedMethod "PAYPAL") ∧
    (createOrderWithPayment ⟨[1], [], [], [], 1, 0⟩ 1 [] ⟨"PAYPAL", none, none⟩
      (fun _ => ⟨true, "T", "ok"⟩)).state = ⟨[1], [], [], [], 1, 0⟩ ∧
    (createOrderWithPayment ⟨[1], [], [], [], 1, 0⟩ 1 [] ⟨"PAYPAL", none, none⟩
      (fun _ => ⟨true, "T", "ok"⟩)).charges = [] ∧
    createErrorStatus (.unsupportedMethod "PAYPAL") = 500 :=
  unsupported_method_no_charge_no_mutation ⟨[1], [], [], [], 1, 0⟩ 1 [] ⟨"PAYPAL", none, none⟩
    (fun _ => ⟨true, "T", "ok"⟩) 0 [] (by decide) rfl (by decide) (by decide)

/-- C7 counterexample: a checkout whose user does not exist is an
engine-raised not-found error, yet the boundary answers 400, not a
404-class response. -/
theorem checkout_notfound_maps_to_400_cx :
    (createController ⟨[], [], [], [], 1, 0⟩ 9
      ⟨some [⟨1, 1⟩], some "CREDIT_CARD", some "4111111111111111", some "123", some "12",
        some "2030", some "John Doe", none, none⟩ (fun _ => ⟨true, "T", "ok"⟩)).2.1 = 400 ∧
    createErrorStatus .userNotFound = 400 ∧ (400 : Nat) ≠ 404 := by
  exact ⟨by decide, by decide, by decide⟩

/-- C7 amended: the boundary maps checkout-path not-found errors (user or
product) to 400 together with insufficient-stock and payment-rejected; only
the order-lookup not-found becomes 404; errors whose message matches none of
the dispatched substrings fall to 500. -/
theorem boundary_error_status_mapping (pid : Nat) (nm m mi mi2 : String) (avail req : Int)
    (h1 : strIncludes mi "Stock insuficiente" = false)
    (h2 : strIncludes mi "Pago rechazado" = false)
    (h3 : strIncludes mi "no encontrado" = false)
    (h4 : strIncludes mi2 "no encontrada" = false) :
    createErrorStatus .userNotFound = 400 ∧
    createErrorStatus (.productNotFound pid) = 400 ∧
    createErrorStatus (.insufficientStock nm avail req) = 400 ∧
    createErrorStatus (.paymentRejected m) = 400 ∧
    getByIdErrorStatus .orderNotFound = 404 ∧
    createErrorStatus (.internal mi) = 500 ∧
    getByIdErrorStatus (.internal mi2) = 500 :=
  ⟨createErrorStatus_userNotFound, createErrorStatus_productNotFound pid,
   createErrorStatus_insufficientStock nm avail req, createErrorStatus_paymentRejected m,
   getByIdErrorStatus_orderNotFound, createErrorStatus_internal mi h1 h2 h3,
   getByIdErrorStatus_internal mi2 h4⟩

theorem boundary_error_status_mapping_witness :
    createErrorStatus .userNotFound = 400 ∧
    createErrorStatus (.productNotFound 5) = 400 ∧
    createErrorStatus (.insufficientStock "P" 3 5) = 400 ∧
    createErrorStatus (.paymentRejected "declined") = 400 ∧
    getByIdErrorStatus .orderNotFound = 404 ∧
    createErrorStatus (.internal "ECONNREFUSED") = 500 ∧
    getByIdErrorStatus (.internal "boom") = 500 :=
  boundary_error_status_mapping 5 "P" "declined" "ECONNREFUSED" "boom" 3 5
    (by decide) (by decide) (by decide) (by decide)

/-! ## Claims C6 and C8 -/


/-- C6: order lookup and listing are scoped to the caller: states differing
only in other users' orders are indistinguishable through `getOrderById`, an
existing order of another user answers exactly like a nonexistent id, and
every listed order belongs to the caller. -/
theorem ownership_isolation (s1 s2 : State) (oid u page limit : Nat)
    (h : s1.orders.filter (fun o => o.userId == u)
        = s2.orders.filter (fun o => o.userId == u)) :
    getOrderById s1 oid u = getOrderById s2 oid u ∧
    ((∀ o ∈ s1.orders, o.id = oid → o.userId ≠ u) →
      getOrderById s1 oid u = .error .orderNotFound) ∧
    (∀ o ∈ (getUserOrders s1 u page limit).items, o.userId = u) := by
  have himp : ∀ o : Order, (o.id == oid && o.userId == u) = true → (o.userId == u) = true := by
    intro o ho
    exact ((Bool.and_eq_true _ _).mp ho).2
  refine ⟨?_, ?_, ?_⟩
  · unfold getOrderById
    rw [← find?_filter_of_imp _ _ himp s1.orders, ← find?_filter_of_imp _ _ himp s2.orders, h]
  · intro hno
    unfold getOrderById
    have hnone : s1.orders.find? (fun o => o.id == oid && o.userId == u) = none := by
      rw [List.find?_eq_none]
      intro x hx
      simp only [Bool.and_eq_true, beq_iff_eq, not_and]
      intro h1 h2
      exact hno x hx h1 h2
    rw [hnone]
  · intro o hmem
    unfold getUserOrders at hmem
    simp only at hmem
    have h1 := List.mem_of_mem_take hmem
    have h2 := List.mem_of_mem_drop h1
    have h3 := mem_sortByCreatedAtDesc h2
    have h4 := List.mem_filter.mp h3
    simpa using h4.2

theorem ownership_isolation_witness :
    (getOrderById ⟨[], [], [⟨5, 2, "COMPLETED", 0, "USD", "T", "CC", "d", 0⟩], [], 2, 1⟩ 5 1
      = getOrderById ⟨[], [], [], [], 1, 0⟩ 5 1) ∧
    getOrderById ⟨[], [], [⟨5, 2, "COMPLETED", 0, "USD", "T", "CC", "d", 0⟩], [], 2, 1⟩ 5 1
      = .error .orderNotFound ∧
    (∀ o ∈ (getUserOrders ⟨[], [], [⟨5, 2, "COMPLETED", 0, "USD", "T", "CC", "d", 0⟩], [],
        2, 1⟩ 1 1 10).items, o.userId = 1) := by
  have h := ownership_isolation
    ⟨[], [], [⟨5, 2, "COMPLETED", 0, "USD", "T", "CC", "d", 0⟩], [], 2, 1⟩
    ⟨[], [], [], [], 1, 0⟩ 5 1 1 10 (by decide)
  exact ⟨h.1, h.2.1 (by decide), h.2.2⟩

/-- C8 counterexample: a requested page size of 51 is rejected with the
400 branch, not served with an effective page size of 50. -/
theorem limit_above_50_rejected_cx :
    listController ⟨[1], [], [], [], 1, 0⟩ 1 none (some 51) = .badRequest := by decide

/-- C8 amended: page defaults to 1 and the page size to 10; a served page
always has `1 ≤ page` and `1 ≤ limit ≤ 50` and carries total / page / limit /
totalPages metadata, but out-of-range values — including any page size above
50 — are rejected with the 400 branch instead of being capped. -/
theorem list_pagination_defaults_and_caps (st : State) (u : Nat) (pageQ limitQ : Option Int) :
    (listController st u pageQ limitQ = .badRequest ↔
      (jsNumberOr pageQ 1 < 1 ∨ jsNumberOr limitQ 10 < 1 ∨ 50 < jsNumberOr limitQ 10)) ∧
    (∀ items total page limit totalPages,
      listController st u pageQ limitQ = .ok items total page limit totalPages →
      1 ≤ page ∧ 1 ≤ limit ∧ limit ≤ 50 ∧
      (pageQ = none → page = 1) ∧ (limitQ = none → limit = 10) ∧
      page = jsNumberOr pageQ 1 ∧ limit = jsNumberOr limitQ 10 ∧
      total = (st.orders.filter (fun o => o.userId == u)).length ∧
      totalPages = (total + limit.toNat - 1) / limit.toNat ∧
      items = ((sortByCreatedAtDesc (st.orders.filter (fun o => o.userId == u))).drop
        ((page.toNat - 1) * limit.toNat)).take limit.toNat) := by
  unfold listController
  simp only [Bool.or_eq_true, decide_eq_true_eq]
  by_cases hc : ((jsNumberOr pageQ 1 < 1 ∨ jsNumberOr limitQ 10 < 1) ∨ jsNumberOr limitQ 10 > 50)
  · rw [if_pos hc]
    refine ⟨iff_of_true rfl (by omega), ?_⟩
    intro items total page limit totalPages hcontra
    cases hcontra
  · rw [if_neg hc]
    refine ⟨iff_of_false (fun hcontra => by cases hcontra) (by omega), ?_⟩
    intro items total page limit totalPages hok
    rw [ListResponse.ok.injEq] at hok
    obtain ⟨hi, ht, hp, hl, htp⟩ := hok
    push_neg at hc
    obtain ⟨⟨ha, hb⟩, hd⟩ := hc
    subst hp
    subst hl
    refine ⟨by omega, by omega, by omega, ?_, ?_, rfl, rfl, ?_, ?_, ?_⟩
    · intro hnone; subst hnone; rfl
    · intro hnone; subst hnone; rfl
    · rw [← ht]; rfl
    · rw [← htp, ← ht]; rfl
    · rw [← hi]; rfl

theorem list_pagination_defaults_and_caps_witness :
    listController ⟨[], [], [], [], 1, 0⟩ 1 none none = .ok [] 0 1 10 0 ∧
    (1 ≤ (1 : Int) ∧ 1 ≤ (10 : Int) ∧ (10 : Int) ≤ 50 ∧
      ((none : Option Int) = none → (1 : Int) = 1) ∧
      ((none : Option Int) = none → (10 : Int) = 10) ∧
      (1 : Int) = jsNumberOr none 1 ∧ (10 : Int) = jsNumberOr none 10 ∧
      0 = ((⟨[], [], [], [], 1, 0⟩ : State).orders.filter (fun o => o.userId == 1)).length ∧
      0 = (0 + (10 : Int).toNat - 1) / (10 : Int).toNat ∧
      ([] : List Order) = ((sortByCreatedAtDesc
        ((⟨[], [], [], [], 1, 0⟩ : State).orders.filter (fun o => o.userId == 1))).drop
        (((1 : Int).toNat - 1) * (10 : Int).toNat)).take (10 : Int).toNat) :=
  ⟨by decide,
   (list_pagination_defaults_and_caps ⟨[], [], [], [], 1, 0⟩ 1 none none).2
     [] 0 1 10 0 (by decide)⟩

end Store
